import Mathlib

/-!
Verification of the FNOL (First Notice of Loss) claims-processing core:
a shallow embedding of app/router_rules.py (completeness validation and
routing) and app/extractor.py (pattern-based extraction and the
extraction coordinator), with theorems settling the specified properties.

Machine floats of the source are modelled as exact rationals: every
numeric literal involved (25000.0, 24999.99, extracted currency amounts)
is a decimal, and the strict-order comparisons of the source coincide on
them.
-/

/-! ### Python string primitives

Models of the Python built-ins used by the source: str.strip, str.lower,
str.split, substring membership, and float() on the digit strings the
damage regex can capture. -/

/-- The whitespace characters stripped by Python str.strip and matched by
the regex class backslash-s (space, tab, newline, carriage return,
vertical tab, form feed). -/
def pyIsSpace (c : Char) : Bool :=
  c.toNat == 32 || c.toNat == 9 || c.toNat == 10 ||
  c.toNat == 13 || c.toNat == 11 || c.toNat == 12

/-- Python str.lower on a single character (ASCII range, as produced by
the source's inputs): uppercase letters are shifted by 32, everything
else is unchanged. -/
def pyLower (c : Char) : Char :=
  if 65 ≤ c.toNat ∧ c.toNat ≤ 90 then Char.ofNat (c.toNat + 32) else c

/-- Python str.lower on a whole string. -/
def pyLowerStr (s : String) : String :=
  ⟨s.data.map pyLower⟩

/-- Remove the trailing whitespace of a character list. -/
def stripEnd (l : List Char) : List Char :=
  (l.reverse.dropWhile pyIsSpace).reverse

/-- Python str.strip on a character list: drop leading and trailing
whitespace. -/
def pstripL (l : List Char) : List Char :=
  stripEnd (l.dropWhile pyIsSpace)

/-- Python str.strip on a string. -/
def pstripS (s : String) : String :=
  ⟨pstripL s.data⟩

/-- Split a character list at every occurrence of the separator
character; models Python str.split with a one-character separator. -/
def splitCharAux (sep : Char) : List Char → List Char → List String
  | [], cur => [⟨cur.reverse⟩]
  | c :: rest, cur =>
    if c == sep then ⟨cur.reverse⟩ :: splitCharAux sep rest []
    else splitCharAux sep rest (c :: cur)

/-- Python str.split with a one-character separator, on strings. -/
def pySplit (sep : Char) (s : String) : List String :=
  splitCharAux sep s.data []

/-- Boolean prefix test on character lists. -/
def pfx : List Char → List Char → Bool
  | [], _ => true
  | _ :: _, [] => false
  | a :: as, b :: bs => a == b && pfx as bs

/-- Boolean substring-occurrence test on character lists; models the
Python expression needle in haystack on strings. -/
def subOcc : List Char → List Char → Bool
  | needle, [] => needle.isEmpty
  | needle, c :: rest => pfx needle (c :: rest) || subOcc needle rest

/-- Python needle in haystack on strings. -/
def inStr (needle hay : String) : Bool :=
  subOcc needle.data hay.data

/-- Numeric value of a digit list read in base 10. -/
def digitsVal : List Char → Nat
  | [] => 0
  | c :: rest => (c.toNat - 48) * 10 ^ rest.length + digitsVal rest

/-- Python float() restricted to the strings the damage capture can
produce after comma removal: an optionally-dotted digit string.  The
capture class admits only digits, commas and one dot-two-digits group,
so after comma removal the argument is digits, optionally followed by a
dot and digits (either side possibly empty, not both).  Anything else -
in particular the empty string - raises ValueError in Python and is
None here. -/
def pyFloat (s : String) : Option ℚ :=
  match pySplit '.' s with
  | [ip] =>
    if ip.data ≠ [] ∧ ip.data.all Char.isDigit then some (digitsVal ip.data) else none
  | [ip, fp] =>
    if (ip.data ≠ [] ∨ fp.data ≠ []) ∧ ip.data.all Char.isDigit ∧ fp.data.all Char.isDigit then
      some ((digitsVal ip.data : ℚ) + (digitsVal fp.data : ℚ) / 10 ^ fp.data.length)
    else none
  | _ => none

/-- Python str.replace removing every comma, as applied to the damage
capture before float(). -/
def removeCommas (s : String) : String :=
  ⟨s.data.filter (fun c => c ≠ ',')⟩

/-- Insert a comma after every third digit of a reversed digit list;
helper for the thousands grouping of Python format spec comma-f. -/
def group3 : List Char → List Char
  | a :: b :: c :: d :: rest => a :: b :: c :: ',' :: group3 (d :: rest)
  | l => l

/-- Python format spec comma-point-2f on an exact rational: thousands
separators and exactly two fractional digits (rounding to cents). -/
def formatMoney (q : ℚ) : String :=
  let cents : ℤ := round (q * 100)
  let n : Nat := cents.natAbs
  let intPart : Nat := n / 100
  let frac : Nat := n % 100
  let intStr : String := ⟨(group3 (Nat.toDigits 10 intPart).reverse).reverse⟩
  let fracStr : String := ⟨(if frac < 10 then ['0'] else []) ++ Nat.toDigits 10 frac⟩
  (if cents < 0 then "-" else "") ++ intStr ++ "." ++ fracStr

/-! ### Regular-expression engine

A backtracking matcher with Python re semantics for the constructs the
source's patterns use: character classes, concatenation, ordered
alternation, greedy and lazy bounded repetition, one capturing group,
and negative lookahead.  Alternatives are explored in pattern order and
starting positions left to right, so the first result is exactly the
match Python re.search returns.  The matcher is written in
continuation-passing style over an explicit fuel; the fuel chosen by
reSearch strictly dominates the number of engine steps on the inputs
evaluated here, and no theorem below depends on its size. -/

/-- Regex abstract syntax: the constructs appearing in the source's
patterns.  All literal characters are matched case-insensitively
(every source pattern carries re.IGNORECASE). -/
inductive Re where
  | eps : Re
  | cls (p : Char → Bool) : Re
  | seq (a b : Re) : Re
  | alt (a b : Re) : Re
  | rep (r : Re) (lo : Nat) (hi : Option Nat) (lazy : Bool) : Re
  | grp (r : Re) : Re
  | nla (r : Re) : Re

/-- Capture state: the half-open span of group 1, when set. -/
abbrev Cap := Option (Nat × Nat)

/-- Overall match result: end position and capture. -/
abbrev MRes := Option (Nat × Cap)

/-- The backtracking matcher.  mtch fuel cs r i cap k matches r against
cs starting at position i with capture state cap and continuation k,
returning the first success in Python engine order (alternation picks
its left branch first, greedy repetition prefers longer, lazy prefers
shorter). -/
def mtch : Nat → List Char → Re → Nat → Cap → (Nat → Cap → MRes) → MRes
  | 0, _, _, _, _, _ => none
  | fuel + 1, cs, re, i, cap, k =>
    match re with
    | .eps => k i cap
    | .cls p =>
      match cs.drop i with
      | [] => none
      | c :: _ => if p c then k (i + 1) cap else none
    | .seq a b => mtch fuel cs a i cap (fun j cap2 => mtch fuel cs b j cap2 k)
    | .alt a b =>
      match mtch fuel cs a i cap k with
      | some res => some res
      | none => mtch fuel cs b i cap k
    | .grp r => mtch fuel cs r i cap (fun j _ => k j (some (i, j)))
    | .nla r =>
      match mtch fuel cs r i cap (fun j c2 => some (j, c2)) with
      | some _ => none
      | none => k i cap
    | .rep r lo hi lz =>
      if lo ≠ 0 then
        mtch fuel cs r i cap (fun j c2 =>
          mtch fuel cs (.rep r (lo - 1) (hi.map Nat.pred) lz) j c2 k)
      else
        match hi with
        | some 0 => k i cap
        | _ =>
          if lz then
            match k i cap with
            | some res => some res
            | none =>
              mtch fuel cs r i cap (fun j c2 =>
                if j == i then none
                else mtch fuel cs (.rep r 0 (hi.map Nat.pred) lz) j c2 k)
          else
            match mtch fuel cs r i cap (fun j c2 =>
                if j == i then none
                else mtch fuel cs (.rep r 0 (hi.map Nat.pred) lz) j c2 k) with
            | some res => some res
            | none => k i cap

/-- Try match positions left to right; rem bounds the number of
positions still to try.  Models the scan of re.search. -/
def searchAux (cs : List Char) (r : Re) (fuel : Nat) : Nat → Nat → Option Cap
  | _, 0 => none
  | i, rem + 1 =>
    match mtch fuel cs r i none (fun j c => some (j, c)) with
    | some (_, cap) => some cap
    | none => searchAux cs r fuel (i + 1) rem

/-- Fuel bound used by reSearch: far more engine steps than any input
evaluated in this development can consume. -/
def reFuel (cs : List Char) : Nat := 4 ^ (cs.length + 16)

/-- Python re.search followed by match.group(1): the leftmost match in
engine order, returning the text of the capturing group.  Every source
pattern contains exactly one group on every accepting path, so a match
always carries a capture; a capture-less match is reported as the empty
capture. -/
def reSearch (r : Re) (text : String) : Option String :=
  let cs := text.data
  match searchAux cs r (reFuel cs) 0 (cs.length + 1) with
  | some (some (s, e)) => some ⟨(cs.drop s).take (e - s)⟩
  | some none => some ""
  | none => none

/-- Concatenation of a pattern list. -/
def rcat (l : List Re) : Re := l.foldr .seq .eps

/-- Ordered alternation of a pattern list (first alternative wins). -/
def ralts : List Re → Re
  | [] => .cls fun _ => false
  | [r] => r
  | r :: rs => .alt r (ralts rs)

/-- Case-insensitive literal, as every source pattern is compiled with
re.IGNORECASE. -/
def rlit (s : String) : Re :=
  rcat (s.data.map fun c => .cls fun d => pyLower d == pyLower c)

/-- Greedy one-or-more. -/
def rplus (r : Re) : Re := .rep r 1 none false

/-- Lazy one-or-more (the +? quantifier). -/
def rplusLazy (r : Re) : Re := .rep r 1 none true

/-- Greedy zero-or-more. -/
def rstar (r : Re) : Re := .rep r 0 none false

/-- Greedy zero-or-one (the ? quantifier). -/
def ropt (r : Re) : Re := .rep r 0 (some 1) false

/-- Greedy bounded repetition, the brace quantifier. -/
def rrange (r : Re) (lo hi : Nat) : Re := .rep r lo (some hi) false

/-! ### The source's patterns

Transliterations of the regular expressions of
extract_fields_heuristic, in source order.  Each is compiled with
re.IGNORECASE, which also folds the case of character classes. -/

/-- Class backslash-d. -/
def clsDigit : Re := .cls Char.isDigit

/-- Class for whitespace (backslash-s). -/
def clsWs : Re := .cls pyIsSpace

/-- Class of whitespace or colon. -/
def clsWsColon : Re := .cls fun c => pyIsSpace c || c == ':'

/-- Class A-Z 0-9 hyphen under IGNORECASE (so both letter cases). -/
def clsUpDigDash : Re := .cls fun c => c.isAlpha || c.isDigit || c == '-'

/-- Class A-Z 0-9 under IGNORECASE. -/
def clsUpDig : Re := .cls fun c => c.isAlpha || c.isDigit

/-- Class of letters and whitespace. -/
def clsAlphaWs : Re := .cls fun c => c.isAlpha || pyIsSpace c

/-- Class of letters. -/
def clsAlpha : Re := .cls Char.isAlpha

/-- Negated class: any character but a newline. -/
def clsNotNl : Re := .cls fun c => c != '\n'

/-- Class of slash or hyphen, the date separators. -/
def clsSlashDash : Re := .cls fun c => c == '/' || c == '-'

/-- Class of digit or comma, the currency-amount characters. -/
def clsDigitComma : Re := .cls fun c => c.isDigit || c == ','

/-- Word character (backslash-w). -/
def clsWord : Re := .cls fun c => c.isAlphanum || c == '_'

/-- Class A or P under IGNORECASE, for AM and PM. -/
def clsAP : Re := .cls fun c => pyLower c == 'a' || pyLower c == 'p'

/-- Policy number, pattern 1. -/
def rePolicy1 : Re :=
  rcat [rlit "Policy", rstar clsWs,
        ralts [rlit "Number", rlit "#", rcat [rlit "No", ropt (rlit ".")]],
        rplus clsWsColon, .grp (rplus clsUpDigDash)]

/-- Policy number, pattern 2. -/
def rePolicy2 : Re :=
  rcat [rlit "Policy", rplus clsWsColon, .grp (rplus clsUpDigDash)]

/-- The ordered policy-number pattern list. -/
def policy_patterns : List Re := [rePolicy1, rePolicy2]

/-- Policyholder name, pattern 1. -/
def reName1 : Re :=
  rcat [rlit "Policyholder", rplus clsWsColon, .grp (rplusLazy clsAlphaWs),
        ralts [rlit "\n", rlit ",", rlit "Policy"]]

/-- Policyholder name, pattern 2. -/
def reName2 : Re :=
  rcat [rlit "Insured", rplus clsWsColon, .grp (rplusLazy clsAlphaWs),
        ralts [rlit "\n", rlit ","]]

/-- The ordered policyholder-name pattern list. -/
def name_patterns : List Re := [reName1, reName2]

/-- The date body: one or two digits, separator, one or two digits,
separator, two to four digits. -/
def reDateCore : Re :=
  rcat [rrange clsDigit 1 2, clsSlashDash, rrange clsDigit 1 2,
        clsSlashDash, rrange clsDigit 2 4]

/-- Incident date, pattern 1: labeled Incident, Loss or Accident Date. -/
def reDate1 : Re :=
  rcat [ralts [rlit "Incident", rlit "Loss", rlit "Accident"], rstar clsWs,
        rlit "Date", rplus clsWsColon, .grp reDateCore]

/-- Incident date, pattern 2: Date of Incident, Loss or Accident. -/
def reDate2 : Re :=
  rcat [rlit "Date", rstar clsWs, rlit "of", rstar clsWs,
        ralts [rlit "Incident", rlit "Loss", rlit "Accident"],
        rplus clsWsColon, .grp reDateCore]

/-- Incident date, pattern 3: a bare generic date. -/
def reDate3 : Re := .grp reDateCore

/-- The ordered incident-date pattern list. -/
def date_patterns : List Re := [reDate1, reDate2, reDate3]

/-- The time body: hour, colon, two minute digits, optional AM or PM. -/
def reTimeCore : Re :=
  rcat [rrange clsDigit 1 2, rlit ":", rrange clsDigit 2 2,
        ropt (rcat [rstar clsWs, clsAP, rlit "M"])]

/-- Incident time, pattern 1. -/
def reTime1 : Re :=
  rcat [ralts [rlit "Incident", rlit "Loss", rlit "Accident"], rstar clsWs,
        rlit "Time", rplus clsWsColon, .grp reTimeCore]

/-- Incident time, pattern 2. -/
def reTime2 : Re := rcat [rlit "Time", rplus clsWsColon, .grp reTimeCore]

/-- The ordered incident-time pattern list. -/
def time_patterns : List Re := [reTime1, reTime2]

/-- Location, pattern 1. -/
def reLoc1 : Re := rcat [rlit "Location", rplus clsWsColon, .grp (rplus clsNotNl)]

/-- Location, pattern 2. -/
def reLoc2 : Re :=
  rcat [ralts [rlit "Incident", rlit "Accident"], rstar clsWs,
        rlit "Location", rplus clsWsColon, .grp (rplus clsNotNl)]

/-- The ordered location pattern list. -/
def location_patterns : List Re := [reLoc1, reLoc2]

/-- The description body: a first line, then further lines whose head is
not a word-and-colon label (negative lookahead). -/
def reDescCore : Re :=
  rcat [rplus clsNotNl,
        rstar (rcat [rlit "\n", .nla (rcat [rplus clsWord, rlit ":"]),
                     rplus clsNotNl])]

/-- Description, pattern 1. -/
def reDesc1 : Re := rcat [rlit "Description", rplus clsWsColon, .grp reDescCore]

/-- Description, pattern 2. -/
def reDesc2 : Re :=
  rcat [rlit "Incident", rstar clsWs, rlit "Description", rplus clsWsColon,
        .grp reDescCore]

/-- The ordered description pattern list. -/
def desc_patterns : List Re := [reDesc1, reDesc2]

/-- Claimant, single pattern. -/
def reClaimant1 : Re :=
  rcat [rlit "Claimant", rplus clsWsColon, .grp (rplusLazy clsAlphaWs),
        ralts [rlit "\n", rlit ","]]

/-- The claimant pattern list. -/
def claimant_patterns : List Re := [reClaimant1]

/-- Contact details, patterns 1 to 3. -/
def reContact1 : Re := rcat [rlit "Contact", rplus clsWsColon, .grp (rplus clsNotNl)]

/-- Contact details by phone label. -/
def reContact2 : Re := rcat [rlit "Phone", rplus clsWsColon, .grp (rplus clsNotNl)]

/-- Contact details by email label. -/
def reContact3 : Re := rcat [rlit "Email", rplus clsWsColon, .grp (rplus clsNotNl)]

/-- The ordered contact pattern list. -/
def contact_patterns : List Re := [reContact1, reContact2, reContact3]

/-- The currency-amount body: digits and commas, optionally a dot and
exactly two digits. -/
def reAmount : Re :=
  rcat [rplus clsDigitComma, ropt (rcat [rlit ".", rrange clsDigit 2 2])]

/-- Estimated damage, pattern 1. -/
def reDamage1 : Re :=
  rcat [rlit "Estimated", rstar clsWs, rlit "Damage", rplus clsWsColon,
        ropt (rlit "$"), .grp reAmount]

/-- Estimated damage, pattern 2. -/
def reDamage2 : Re :=
  rcat [rlit "Damage", rplus clsWsColon, ropt (rlit "$"), .grp reAmount]

/-- Estimated damage, pattern 3. -/
def reDamage3 : Re :=
  rcat [rlit "Loss", rstar clsWs, rlit "Amount", rplus clsWsColon,
        ropt (rlit "$"), .grp reAmount]

/-- The ordered damage pattern list. -/
def damage_patterns : List Re := [reDamage1, reDamage2, reDamage3]

/-- Claim type, pattern 1. -/
def reClaimType1 : Re :=
  rcat [rlit "Claim", rstar clsWs, rlit "Type", rplus clsWsColon,
        .grp (rplus clsAlpha)]

/-- Claim type, pattern 2. -/
def reClaimType2 : Re :=
  rcat [rlit "Type", rstar clsWs, rlit "of", rstar clsWs, rlit "Claim",
        rplus clsWsColon, .grp (rplus clsAlpha)]

/-- The ordered claim-type pattern list. -/
def claim_type_patterns : List Re := [reClaimType1, reClaimType2]

/-- Asset type, pattern 1. -/
def reAsset1 : Re :=
  rcat [rlit "Asset", rstar clsWs, rlit "Type", rplus clsWsColon,
        .grp (rplus clsNotNl)]

/-- Asset type, pattern 2. -/
def reAsset2 : Re :=
  rcat [rlit "Vehicle", rstar clsWs, rlit "Type", rplus clsWsColon,
        .grp (rplus clsNotNl)]

/-- The ordered asset-type pattern list. -/
def asset_patterns : List Re := [reAsset1, reAsset2]

/-- Asset id, pattern 1: VIN or Vehicle ID. -/
def reAssetId1 : Re :=
  rcat [ralts [rlit "VIN", rcat [rlit "Vehicle", rstar clsWs, rlit "ID"]],
        rplus clsWsColon, .grp (rplus clsUpDig)]

/-- Asset id, pattern 2: license plate. -/
def reAssetId2 : Re :=
  rcat [rlit "License", rstar clsWs, rlit "Plate", rplus clsWsColon,
        .grp (rplus clsUpDigDash)]

/-- Asset id, pattern 3: labeled asset id. -/
def reAssetId3 : Re :=
  rcat [rlit "Asset", rstar clsWs, rlit "ID", rplus clsWsColon,
        .grp (rplus clsUpDigDash)]

/-- The ordered asset-id pattern list. -/
def asset_id_patterns : List Re := [reAssetId1, reAssetId2, reAssetId3]

/-! ### The pattern extractor

extract_fields_heuristic of app/extractor.py returns a Python dict; it
is modelled as a JSON-like value so that the presence of the structural
groups and leaf keys is a provable property rather than a typing
artefact. -/

/-- A Python/JSON value as produced by the extractor. -/
inductive JVal where
  | null : JVal
  | str (s : String) : JVal
  | num (q : ℚ) : JVal
  | arr (l : List JVal) : JVal
  | obj (fields : List (String × JVal)) : JVal

/-- An absent-or-string leaf. -/
def optToJ : Option String → JVal
  | none => .null
  | some s => .str s

/-- An absent-or-number leaf. -/
def optNumToJ : Option ℚ → JVal
  | none => .null
  | some q => .num q

/-- First-match-wins over a pattern list: the for-loop with break that
the source repeats for every target leaf.  The first pattern whose
search succeeds supplies the captured group and the remaining
alternatives are skipped. -/
def first_matching : List Re → String → Option String
  | [], _ => none
  | p :: ps, text =>
    match reSearch p text with
    | some g => some g
    | none => first_matching ps text

/-- Assemble the extractor's result dict from the per-leaf values.  The
layout (keys and their order, and the always-null leaves effectiveDates,
thirdParties, attachments and initialEstimate) is the initial dict of
extract_fields_heuristic; each written leaf holds the value stored by
the corresponding pattern loop. -/
def buildExtracted (pn phn dt tm loc dsc clm cont : Option String)
    (dmg : Option ℚ) (cty aty aid : Option String) : JVal :=
  .obj [
    ("policyInformation", .obj [
      ("policyNumber", optToJ pn),
      ("policyholderName", optToJ phn),
      ("effectiveDates", .null)]),
    ("incidentInformation", .obj [
      ("date", optToJ dt),
      ("time", optToJ tm),
      ("location", optToJ loc),
      ("description", optToJ dsc)]),
    ("involvedParties", .obj [
      ("claimant", optToJ clm),
      ("thirdParties", .null),
      ("contactDetails", optToJ cont)]),
    ("assetDetails", .obj [
      ("assetType", optToJ aty),
      ("assetId", optToJ aid),
      ("estimatedDamage", optNumToJ dmg)]),
    ("claimType", optToJ cty),
    ("attachments", .null),
    ("initialEstimate", .null)]

/-- The estimated-damage leaf: on the first matching pattern the capture
has its commas removed and is parsed by float(); a parse failure is
caught (except ValueError: pass) and leaves the leaf absent, and the
break still skips the remaining patterns. -/
def damageLeaf (text : String) : Option ℚ :=
  match first_matching damage_patterns text with
  | none => none
  | some g => pyFloat (removeCommas g)

/-- extract_fields_heuristic of app/extractor.py: the pure, total
fallback extractor.  Every string leaf stores the stripped capture of
the first matching pattern of its own list; claimType is additionally
lowercased; estimated damage goes through comma removal and float(). -/
def extract_fields_heuristic (text : String) : JVal :=
  buildExtracted
    ((first_matching policy_patterns text).map pstripS)
    ((first_matching name_patterns text).map pstripS)
    ((first_matching date_patterns text).map pstripS)
    ((first_matching time_patterns text).map pstripS)
    ((first_matching location_patterns text).map pstripS)
    ((first_matching desc_patterns text).map pstripS)
    ((first_matching claimant_patterns text).map pstripS)
    ((first_matching contact_patterns text).map pstripS)
    (damageLeaf text)
    ((first_matching claim_type_patterns text).map fun g => pyLowerStr (pstripS g))
    ((first_matching asset_patterns text).map pstripS)
    ((first_matching asset_id_patterns text).map pstripS)

/-- The all-null initial dict of extract_fields_heuristic, which is also
its output when no pattern matches. -/
def allAbsentJ : JVal :=
  .obj [
    ("policyInformation", .obj [
      ("policyNumber", .null),
      ("policyholderName", .null),
      ("effectiveDates", .null)]),
    ("incidentInformation", .obj [
      ("date", .null),
      ("time", .null),
      ("location", .null),
      ("description", .null)]),
    ("involvedParties", .obj [
      ("claimant", .null),
      ("thirdParties", .null),
      ("contactDetails", .null)]),
    ("assetDetails", .obj [
      ("assetType", .null),
      ("assetId", .null),
      ("estimatedDamage", .null)]),
    ("claimType", .null),
    ("attachments", .null),
    ("initialEstimate", .null)]

/-- Key lookup in an object value. -/
def getKey (j : JVal) (k : String) : Option JVal :=
  match j with
  | .obj fields => List.lookup k fields
  | _ => none

/-- Dotted-path lookup in a JSON value. -/
def getPath (j : JVal) : List String → Option JVal
  | [] => some j
  | k :: rest =>
    match getKey j k with
    | some v => getPath v rest
    | none => none

/-! ### The extraction coordinator

extract_fields of app/extractor.py.  The structured-model strategy
performs network I/O, so its outcome is an input of the model: either a
parsed dict or the single GeminiAPIError condition (every failure mode
of extract_fields_with_gemini, including absent credentials, is raised
as GeminiAPIError).  The fallback call is wrapped in try/except in the
source; the pattern extractor is a total function, so the except branch
that would raise ExtractionError cannot fire, which the coordinator
theorem makes explicit. -/

/-- extract_fields of app/extractor.py: try the structured-model
strategy, fall back to the heuristic on GeminiAPIError, and surface
ExtractionError only if the fallback itself fails. -/
def extract_fields (gemini : Except String JVal) (text : String) :
    Except String JVal :=
  match gemini with
  | .ok extracted => .ok extracted
  | .error _ =>
    match (Except.ok (extract_fields_heuristic text) : Except String JVal) with
    | .ok extracted => .ok extracted
    | .error e => .error ("All extraction methods failed: " ++ e)

/-! ### The data model

The pydantic models of app/models.py that the validator and router
consume.  Optional leaves are Option values; the four structural groups
are always present, as in the source where they are required fields. -/

/-- PolicyInformation of app/models.py. -/
structure PolicyInformation where
  policyNumber : Option String
  policyholderName : Option String
  effectiveDates : Option String
deriving DecidableEq

/-- IncidentInformation of app/models.py. -/
structure IncidentInformation where
  date : Option String
  time : Option String
  location : Option String
  description : Option String
deriving DecidableEq

/-- InvolvedParties of app/models.py. -/
structure InvolvedParties where
  claimant : Option String
  thirdParties : Option (List String)
  contactDetails : Option String
deriving DecidableEq

/-- AssetDetails of app/models.py; estimatedDamage is an exact rational
standing for the source's float. -/
structure AssetDetails where
  assetType : Option String
  assetId : Option String
  estimatedDamage : Option ℚ
deriving DecidableEq

/-- ExtractedFields of app/models.py. -/
structure ExtractedFields where
  policyInformation : PolicyInformation
  incidentInformation : IncidentInformation
  involvedParties : InvolvedParties
  assetDetails : AssetDetails
  claimType : Option String
  attachments : Option (List String)
  initialEstimate : Option ℚ
deriving DecidableEq

/-! ### Validation and routing (app/router_rules.py) -/

/-- The six mandatory dotted field paths, in declaration order. -/
def MANDATORY_FIELDS : List String :=
  ["policyInformation.policyNumber",
   "policyInformation.policyholderName",
   "incidentInformation.date",
   "incidentInformation.description",
   "claimType",
   "assetDetails.estimatedDamage"]

/-- The fraud keywords checked case-insensitively in the description. -/
def FRAUD_KEYWORDS : List String := ["fraud", "inconsistent", "staged"]

/-- The fast-track damage threshold in USD. -/
def FAST_TRACK_THRESHOLD : ℚ := 25000.0

/-- A dynamic attribute value as seen by the getattr calls of
identify_missing_fields: an absent value, a primitive leaf, or one of
the four group objects. -/
inductive PyVal where
  | vNone : PyVal
  | vStr (s : String) : PyVal
  | vNum (q : ℚ) : PyVal
  | vList (l : List String) : PyVal
  | vPolicy (p : PolicyInformation) : PyVal
  | vIncident (i : IncidentInformation) : PyVal
  | vParties (p : InvolvedParties) : PyVal
  | vAsset (a : AssetDetails) : PyVal

/-- Lift an optional string attribute to a dynamic value. -/
def optStrV : Option String → PyVal
  | none => .vNone
  | some s => .vStr s

/-- Lift an optional number attribute to a dynamic value. -/
def optNumV : Option ℚ → PyVal
  | none => .vNone
  | some q => .vNum q

/-- Lift an optional string-list attribute to a dynamic value. -/
def optListV : Option (List String) → PyVal
  | none => .vNone
  | some l => .vList l

/-- getattr(extracted, name, None) on an ExtractedFields instance. -/
def pyGetattrTop (e : ExtractedFields) : String → PyVal
  | "policyInformation" => .vPolicy e.policyInformation
  | "incidentInformation" => .vIncident e.incidentInformation
  | "involvedParties" => .vParties e.involvedParties
  | "assetDetails" => .vAsset e.assetDetails
  | "claimType" => optStrV e.claimType
  | "attachments" => optListV e.attachments
  | "initialEstimate" => optNumV e.initialEstimate
  | _ => .vNone

/-- getattr(parent, name, None) on the value obtained from the first
path segment: only the group objects expose further attributes. -/
def pyGetattrNested : PyVal → String → PyVal
  | .vPolicy p, "policyNumber" => optStrV p.policyNumber
  | .vPolicy p, "policyholderName" => optStrV p.policyholderName
  | .vPolicy p, "effectiveDates" => optStrV p.effectiveDates
  | .vIncident i, "date" => optStrV i.date
  | .vIncident i, "time" => optStrV i.time
  | .vIncident i, "location" => optStrV i.location
  | .vIncident i, "description" => optStrV i.description
  | .vParties p, "claimant" => optStrV p.claimant
  | .vParties p, "thirdParties" => optListV p.thirdParties
  | .vParties p, "contactDetails" => optStrV p.contactDetails
  | .vAsset a, "assetType" => optStrV a.assetType
  | .vAsset a, "assetId" => optStrV a.assetId
  | .vAsset a, "estimatedDamage" => optNumV a.estimatedDamage
  | _, _ => .vNone

/-- Resolve one dotted field path against an instance, exactly as the
loop body of identify_missing_fields: split on the dot, then one or two
getattr steps, None for a missing parent or deeper nesting. -/
def resolveFieldPath (e : ExtractedFields) (fieldPath : String) : PyVal :=
  match pySplit '.' fieldPath with
  | [single] => pyGetattrTop e single
  | [parent, leaf] =>
    match pyGetattrTop e parent with
    | .vNone => .vNone
    | p => pyGetattrNested p leaf
  | _ => .vNone

/-- The missing test of identify_missing_fields: value is None, or it is
a string that is empty after stripping. -/
def pyIsMissing : PyVal → Bool
  | .vNone => true
  | .vStr s => pstripS s == ""
  | _ => false

/-- identify_missing_fields of app/router_rules.py: the for-loop that
appends each mandatory path whose resolved value is missing, i.e. the
filter of MANDATORY_FIELDS by the missing test. -/
def identify_missing_fields (extracted : ExtractedFields) : List String :=
  MANDATORY_FIELDS.filter fun fieldPath =>
    pyIsMissing (resolveFieldPath extracted fieldPath)

/-- check_fraud_keywords of app/router_rules.py: False on a None
description, otherwise any fraud keyword occurring as a substring of the
lowercased description. -/
def check_fraud_keywords : Option String → Bool
  | none => false
  | some description =>
    FRAUD_KEYWORDS.any fun keyword => inStr keyword (pyLowerStr description)

/-- The injury test of determine_route: Python truthiness of claimType
(None and the empty string are falsy) and case-insensitive equality with
injury. -/
def claimTypeIsInjury : Option String → Bool
  | none => false
  | some s => !(s == "") && (pyLowerStr s == "injury")

/-- determine_route of app/router_rules.py: the strict priority cascade
Investigation, ManualReview, SpecialistQueue, FastTrack, Standard,
returning the route with its reasoning text.  The Standard pair is
written twice because the source reaches it by falling through the
damage match. -/
def determine_route (extracted : ExtractedFields) (missing : List String) :
    String × String :=
  if check_fraud_keywords extracted.incidentInformation.description then
    ("Investigation",
     "Claim flagged for investigation due to presence of fraud indicators in the incident description. Manual review required to assess validity.")
  else if missing ≠ [] then
    ("ManualReview",
     "Claim requires manual review due to missing mandatory fields: " ++
       String.intercalate ", " missing ++
       ". Complete information is needed before processing can continue.")
  else if claimTypeIsInjury extracted.claimType then
    ("SpecialistQueue",
     "Claim routed to specialist queue due to injury claim type. Specialized handling required for injury-related claims.")
  else
    match extracted.assetDetails.estimatedDamage with
    | some estimated_damage =>
      if estimated_damage < FAST_TRACK_THRESHOLD then
        ("FastTrack",
         "Claim eligible for fast-track processing with estimated damage of $" ++
           formatMoney estimated_damage ++ ", which is below the $" ++
           formatMoney FAST_TRACK_THRESHOLD ++ " threshold.")
      else
        ("Standard",
         "Claim routed to standard processing queue. No special conditions identified requiring alternative routing.")
    | none =>
      ("Standard",
       "Claim routed to standard processing queue. No special conditions identified requiring alternative routing.")

/-! ### Specification-side definitions

Definitions written from the spec's words, to be compared with the
source-derived ones: the ordered guard cascade of section 4.5, the
direct-access missing-field list of section 4.4, and the structural
predicates of sections 3 and 8 on the extractor's output. -/

/-- The spec's ordered guard list: each non-default route with its
trigger, in the fixed order of section 4.5. -/
def routeGuards (e : ExtractedFields) (missing : List String) :
    List (Bool × String) :=
  [(check_fraud_keywords e.incidentInformation.description, "Investigation"),
   (!missing.isEmpty, "ManualReview"),
   ((match e.claimType with
     | none => false
     | some s => pyLowerStr s == "injury"), "SpecialistQueue"),
   ((match e.assetDetails.estimatedDamage with
     | none => false
     | some d => decide (d < FAST_TRACK_THRESHOLD)), "FastTrack")]

/-- First-guard-wins evaluation of an ordered guard list, defaulting to
Standard: the spec's state machine. -/
def firstRoute : List (Bool × String) → String
  | [] => "Standard"
  | (b, r) :: rest => if b then r else firstRoute rest

/-- The closed enumeration of route names from section 3 of the spec. -/
def ROUTE_NAMES : List String :=
  ["Investigation", "ManualReview", "SpecialistQueue", "FastTrack", "Standard"]

/-- The spec's missing test for an optional string leaf: absent, or
empty after trimming whitespace. -/
def specMissingStr (v : Option String) : Bool :=
  match v with
  | none => true
  | some s => pstripS s == ""

/-- The spec's missing test for an optional numeric leaf: absent. -/
def specMissingNum (v : Option ℚ) : Bool :=
  match v with
  | none => true
  | some _ => false

/-- Modelled from the spec, section 4.4: the ordered missing-path list
written with direct accessors instead of dotted-path resolution - the
six mandatory paths in declaration order, each kept when its leaf is
absent or blank. -/
def specMissingFields (e : ExtractedFields) : List String :=
  (if specMissingStr e.policyInformation.policyNumber
    then ["policyInformation.policyNumber"] else []) ++
  (if specMissingStr e.policyInformation.policyholderName
    then ["policyInformation.policyholderName"] else []) ++
  (if specMissingStr e.incidentInformation.date
    then ["incidentInformation.date"] else []) ++
  (if specMissingStr e.incidentInformation.description
    then ["incidentInformation.description"] else []) ++
  (if specMissingStr e.claimType then ["claimType"] else []) ++
  (if specMissingNum e.assetDetails.estimatedDamage
    then ["assetDetails.estimatedDamage"] else [])

/-- An absent-or-string JSON leaf. -/
def isStrLeafJ : JVal → Bool
  | .null => true
  | .str _ => true
  | _ => false

/-- An absent-or-number JSON leaf. -/
def isNumLeafJ : JVal → Bool
  | .null => true
  | .num _ => true
  | _ => false

/-- An absent-or-string-array JSON leaf. -/
def isListLeafJ : JVal → Bool
  | .null => true
  | .arr l => l.all isStrLeafJ
  | _ => false

/-- A present object at a path. -/
def groupAt (j : JVal) (k : String) : Bool :=
  match getKey j k with
  | some (.obj _) => true
  | _ => false

/-- The string-typed leaf paths of the schema, section 3 of the spec. -/
def stringLeafPaths : List (List String) :=
  [["policyInformation", "policyNumber"],
   ["policyInformation", "policyholderName"],
   ["policyInformation", "effectiveDates"],
   ["incidentInformation", "date"],
   ["incidentInformation", "time"],
   ["incidentInformation", "location"],
   ["incidentInformation", "description"],
   ["involvedParties", "claimant"],
   ["involvedParties", "contactDetails"],
   ["assetDetails", "assetType"],
   ["assetDetails", "assetId"],
   ["claimType"]]

/-- Check a leaf at a path with a leaf predicate; a missing key fails. -/
def leafAt (j : JVal) (path : List String) (p : JVal → Bool) : Bool :=
  match getPath j path with
  | some v => p v
  | none => false

/-- Modelled from the spec, sections 3 and 4.1: a fully-structured
ExtractedFields value - all four groups present as objects, every leaf
key present, and every leaf absent or of its schema type. -/
def fullyStructured (j : JVal) : Bool :=
  groupAt j "policyInformation" && groupAt j "incidentInformation" &&
  groupAt j "involvedParties" && groupAt j "assetDetails" &&
  stringLeafPaths.all (fun p => leafAt j p isStrLeafJ) &&
  leafAt j ["assetDetails", "estimatedDamage"] isNumLeafJ &&
  leafAt j ["initialEstimate"] isNumLeafJ &&
  leafAt j ["involvedParties", "thirdParties"] isListLeafJ &&
  leafAt j ["attachments"] isListLeafJ

/-- A string leaf that, when present, is non-empty after trimming: the
invariant the spec states for extractor output. -/
def leafNonBlank : JVal → Bool
  | .str s => !(pstripS s == "")
  | _ => true

/-- A string leaf that, when present, is already trimmed. -/
def leafTrimmed : JVal → Bool
  | .str s => pstripS s == s
  | _ => true

/-- Modelled from the spec, section 3: every present string leaf of the
output is non-empty after trimming. -/
def allStringLeavesNonBlank (j : JVal) : Bool :=
  stringLeafPaths.all fun p =>
    match getPath j p with
    | some v => leafNonBlank v
    | none => true

/-- Every present string leaf of the output is already trimmed. -/
def allStringLeavesTrimmed (j : JVal) : Bool :=
  stringLeafPaths.all fun p =>
    match getPath j p with
    | some v => leafTrimmed v
    | none => true

/-- No ASCII uppercase letter occurs in the string. -/
def noUpper (s : String) : Bool :=
  s.data.all fun c => !(65 ≤ c.toNat && c.toNat ≤ 90)

/-- The fully-blank ExtractedFields instance: every leaf absent. -/
def blankExtracted : ExtractedFields :=
  { policyInformation :=
      { policyNumber := none, policyholderName := none, effectiveDates := none }
    incidentInformation :=
      { date := none, time := none, location := none, description := none }
    involvedParties :=
      { claimant := none, thirdParties := none, contactDetails := none }
    assetDetails :=
      { assetType := none, assetId := none, estimatedDamage := none }
    claimType := none
    attachments := none
    initialEstimate := none }

/-! ### Helper lemmas -/

/-- dropWhile is idempotent. -/
theorem dropWhile_dropWhile_eq (p : Char → Bool) (l : List Char) :
    (l.dropWhile p).dropWhile p = l.dropWhile p := by
  induction l with
  | nil => rfl
  | cons a l ih =>
    by_cases h : p a
    · simpa [List.dropWhile_cons, h] using ih
    · simp [List.dropWhile_cons, h]

/-- stripEnd is idempotent. -/
theorem stripEnd_stripEnd (l : List Char) :
    stripEnd (stripEnd l) = stripEnd l := by
  simp [stripEnd, dropWhile_dropWhile_eq]

/-- The result of dropWhile is a suffix of the input. -/
theorem dropWhile_isSuffix (p : Char → Bool) (l : List Char) :
    l.dropWhile p <:+ l := by
  induction l with
  | nil => exact List.suffix_rfl
  | cons a l ih =>
    by_cases h : p a
    · simpa [List.dropWhile_cons, h] using ih.trans (l.suffix_cons a)
    · simp [List.dropWhile_cons, h, List.suffix_rfl]

/-- stripEnd yields a prefix of the input. -/
theorem stripEnd_isPrefix (l : List Char) : stripEnd l <+: l := by
  have h := dropWhile_isSuffix pyIsSpace l.reverse
  have h2 : (l.reverse.dropWhile pyIsSpace).reverse <+: l.reverse.reverse :=
    List.reverse_prefix.mpr h
  simpa [stripEnd] using h2

/-- A list invariant under dropWhile stays so after stripEnd. -/
theorem dropWhile_stripEnd (p : Char → Bool) (l : List Char)
    (h : l.dropWhile p = l) : (stripEnd l).dropWhile p = stripEnd l := by
  rcases hse : stripEnd l with _ | ⟨b, t⟩
  · rfl
  · have hpre : stripEnd l <+: l := stripEnd_isPrefix l
    rw [hse] at hpre
    rcases hpre with ⟨s, hs⟩
    have hb : p b = false := by
      rcases l with _ | ⟨a, l0⟩
      · simp at hs
      · have hba : b = a := by
          have := hs
          simp only [List.cons_append] at this
          exact (List.cons.injEq _ _ _ _ ▸ this).1
        subst hba
        by_cases hpb : p b
        · rw [List.dropWhile_cons_of_pos hpb] at h
          have hlen := congrArg List.length h
          simp only [List.length_cons] at hlen
          have hle := (dropWhile_isSuffix p l0).sublist.length_le
          omega
        · simpa using hpb
    simp [List.dropWhile_cons, hb]

/-- Python strip is idempotent. -/
theorem pstripL_idem (l : List Char) : pstripL (pstripL l) = pstripL l := by
  unfold pstripL
  have h1 : (stripEnd (l.dropWhile pyIsSpace)).dropWhile pyIsSpace =
      stripEnd (l.dropWhile pyIsSpace) :=
    dropWhile_stripEnd pyIsSpace _ (dropWhile_dropWhile_eq pyIsSpace l)
  rw [h1, stripEnd_stripEnd]

/-- Python strip is idempotent, on strings. -/
theorem pstripS_idem (s : String) : pstripS (pstripS s) = pstripS s := by
  simp [pstripS, pstripL_idem]

/-- Character codes between 97 and 122 round-trip through Char.ofNat. -/
theorem charOfNat_toNat_low (n : Nat) (h1 : 97 ≤ n) (h2 : n ≤ 122) :
    (Char.ofNat n).toNat = n := by
  interval_cases n <;> decide

/-- Lowercasing does not change whether a character is whitespace. -/
theorem pyIsSpace_pyLower (c : Char) : pyIsSpace (pyLower c) = pyIsSpace c := by
  unfold pyLower
  by_cases h : 65 ≤ c.toNat ∧ c.toNat ≤ 90
  · rw [if_pos h]
    have ht : (Char.ofNat (c.toNat + 32)).toNat = c.toNat + 32 :=
      charOfNat_toNat_low _ (by omega) (by omega)
    have h65 := h.1
    have h90 := h.2
    have hL : pyIsSpace (Char.ofNat (c.toNat + 32)) = false := by
      simp only [pyIsSpace, ht, Bool.or_eq_false_iff, beq_eq_false_iff_ne, ne_eq]
      omega
    have hR : pyIsSpace c = false := by
      simp only [pyIsSpace, Bool.or_eq_false_iff, beq_eq_false_iff_ne, ne_eq]
      omega
    rw [hL, hR]
  · rw [if_neg h]

/-- Lowercasing never produces an ASCII uppercase letter. -/
theorem pyLower_not_upper (c : Char) :
    (!(65 ≤ (pyLower c).toNat && (pyLower c).toNat ≤ 90)) = true := by
  unfold pyLower
  by_cases h : 65 ≤ c.toNat ∧ c.toNat ≤ 90
  · rw [if_pos h]
    have ht : (Char.ofNat (c.toNat + 32)).toNat = c.toNat + 32 :=
      charOfNat_toNat_low _ (by omega) (by omega)
    rw [ht]
    have h90 := h.2
    simp only [Bool.not_eq_true', Bool.and_eq_false_iff, decide_eq_false_iff_not]
    omega
  · rw [if_neg h]
    simp only [Bool.not_eq_true', Bool.and_eq_false_iff, decide_eq_false_iff_not]
    omega

/-- Lowercased strings contain no ASCII uppercase letter. -/
theorem noUpper_pyLowerStr (s : String) : noUpper (pyLowerStr s) = true := by
  simp only [noUpper, pyLowerStr, List.all_map, List.all_eq_true]
  intro c _
  exact pyLower_not_upper c

/-- Stripping commutes with lowercasing. -/
theorem pstripL_map_pyLower (l : List Char) :
    pstripL (l.map pyLower) = (pstripL l).map pyLower := by
  have hp : (pyIsSpace ∘ pyLower) = pyIsSpace := by
    funext c
    exact pyIsSpace_pyLower c
  have hdw : ∀ m : List Char,
      (m.map pyLower).dropWhile pyIsSpace =
        (m.dropWhile pyIsSpace).map pyLower := by
    intro m
    rw [List.dropWhile_map, hp]
  unfold pstripL stripEnd
  rw [hdw, ← List.map_reverse, hdw, List.map_reverse]

/-- A lowercased stripped string is already stripped. -/
theorem pstripS_pyLowerStr_pstripS (s : String) :
    pstripS (pyLowerStr (pstripS s)) = pyLowerStr (pstripS s) := by
  simp only [pstripS, pyLowerStr, pstripL_map_pyLower, pstripL_idem]

/-- The Boolean prefix test agrees with list prefixing. -/
theorem pfx_iff (n h : List Char) : pfx n h = true ↔ n <+: h := by
  induction n generalizing h with
  | nil => simp [pfx]
  | cons a as ih =>
    cases h with
    | nil => simp [pfx]
    | cons b bs =>
      simp only [pfx, Bool.and_eq_true, beq_iff_eq, ih, List.cons_prefix_cons]

/-- The Boolean substring test agrees with list infixing. -/
theorem subOcc_iff (n h : List Char) : subOcc n h = true ↔ n <:+: h := by
  induction h with
  | nil => simp [subOcc, List.isEmpty_iff]
  | cons c rest ih =>
    simp only [subOcc, Bool.or_eq_true, pfx_iff, ih, List.infix_cons_iff]

/-- The source's injury guard (with Python truthiness) coincides with
the spec's case-insensitive equality test: the truthiness conjunct is
redundant because the lowercase of the empty string is not injury. -/
theorem claimTypeIsInjury_eq (o : Option String) :
    claimTypeIsInjury o = (match o with
      | none => false
      | some s => pyLowerStr s == "injury") := by
  cases o with
  | none => rfl
  | some s =>
    by_cases h : s = ""
    · subst h
      rfl
    · simp [claimTypeIsInjury, h]

/-- The dynamic missing test on a lifted string attribute is the spec's
string missing test. -/
theorem pyIsMissing_optStrV (v : Option String) :
    pyIsMissing (optStrV v) = specMissingStr v := by
  cases v <;> rfl

/-- The dynamic missing test on a lifted numeric attribute is the spec's
numeric missing test. -/
theorem pyIsMissing_optNumV (v : Option ℚ) :
    pyIsMissing (optNumV v) = specMissingNum v := by
  cases v <;> rfl

/-- Dotted-path resolution of the first mandatory path. -/
theorem resolve_path_policyNumber (e : ExtractedFields) :
    resolveFieldPath e "policyInformation.policyNumber" =
      optStrV e.policyInformation.policyNumber := rfl

/-- Dotted-path resolution of the second mandatory path. -/
theorem resolve_path_policyholderName (e : ExtractedFields) :
    resolveFieldPath e "policyInformation.policyholderName" =
      optStrV e.policyInformation.policyholderName := rfl

/-- Dotted-path resolution of the third mandatory path. -/
theorem resolve_path_date (e : ExtractedFields) :
    resolveFieldPath e "incidentInformation.date" =
      optStrV e.incidentInformation.date := rfl

/-- Dotted-path resolution of the fourth mandatory path. -/
theorem resolve_path_description (e : ExtractedFields) :
    resolveFieldPath e "incidentInformation.description" =
      optStrV e.incidentInformation.description := rfl

/-- Dotted-path resolution of the fifth mandatory path. -/
theorem resolve_path_claimType (e : ExtractedFields) :
    resolveFieldPath e "claimType" = optStrV e.claimType := rfl

/-- Dotted-path resolution of the sixth mandatory path. -/
theorem resolve_path_estimatedDamage (e : ExtractedFields) :
    resolveFieldPath e "assetDetails.estimatedDamage" =
      optNumV e.assetDetails.estimatedDamage := rfl

/-- C1: for every ExtractedFields instance and missing-path list,
determine_route is the first-guard-wins evaluation of the five guards in
the fixed order Investigation, ManualReview, SpecialistQueue, FastTrack,
Standard, and its route name is always one of these five, paired with a
reasoning string. -/
theorem c1_route_cascade (e : ExtractedFields) (missing : List String) :
    (determine_route e missing).1 = firstRoute (routeGuards e missing) ∧
    (determine_route e missing).1 ∈ ROUTE_NAMES := by
  have hmain : (determine_route e missing).1 = firstRoute (routeGuards e missing) := by
    unfold determine_route routeGuards
    by_cases h1 : check_fraud_keywords e.incidentInformation.description
    · simp [firstRoute, h1]
    · by_cases h2 : missing = []
      · subst h2
        simp only [ne_eq, not_true_eq_false, if_neg h1, if_false,
          List.isEmpty_nil, Bool.not_true, firstRoute, Bool.false_eq_true,
          reduceIte, eq_self_iff_true, not_false_eq_true, if_true]
        rw [← claimTypeIsInjury_eq]
        by_cases h3 : claimTypeIsInjury e.claimType
        · simp [firstRoute, h1, h3]
        · rcases hd : e.assetDetails.estimatedDamage with _ | d
          · simp [firstRoute, h1, h3, hd]
          · by_cases h4 : d < FAST_TRACK_THRESHOLD
            · simp [firstRoute, h1, h3, hd, h4]
            · simp [firstRoute, h1, h3, hd, h4]
      · simp [firstRoute, h1, h2, List.isEmpty_iff]
  refine ⟨hmain, ?_⟩
  rw [hmain]
  unfold routeGuards firstRoute ROUTE_NAMES
  by_cases h1 : check_fraud_keywords e.incidentInformation.description <;>
    by_cases h2 : missing.isEmpty <;>
      rcases h3 : (match e.claimType with
        | none => false
        | some s => pyLowerStr s == "injury") <;>
        rcases h4 : (match e.assetDetails.estimatedDamage with
          | none => false
          | some d => decide (d < FAST_TRACK_THRESHOLD)) <;>
    simp [firstRoute, h1, h2, h3, h4]

/-- C2: with no fraud keyword, an empty missing list and a non-injury
claim type, a present estimated damage strictly below 25000.0 routes to
FastTrack and a damage of exactly 25000.0 routes to Standard: the
boundary is strict less-than. -/
theorem c2_fast_track_boundary (e : ExtractedFields)
    (hFraud : check_fraud_keywords e.incidentInformation.description = false)
    (hInjury : ∀ s, e.claimType = some s → ¬(pyLowerStr s = "injury"))
    (d : ℚ) (hDamage : e.assetDetails.estimatedDamage = some d) :
    (d < FAST_TRACK_THRESHOLD → (determine_route e []).1 = "FastTrack") ∧
    (d = FAST_TRACK_THRESHOLD → (determine_route e []).1 = "Standard") := by
  have hInj : claimTypeIsInjury e.claimType = false := by
    rw [claimTypeIsInjury_eq]
    rcases hct : e.claimType with _ | s
    · rfl
    · simpa using hInjury s hct
  constructor
  · intro hlt
    unfold determine_route
    rw [hFraud, hInj, hDamage]
    simp [hlt]
  · intro heq
    unfold determine_route
    rw [hFraud, hInj, hDamage]
    simp [heq]

/-- Witness for C2 at concrete inputs: damage 24999.99 is fast-tracked
and damage 25000.0 is not. -/
theorem c2_fast_track_boundary_witness :
    (determine_route
      { policyInformation :=
          { policyNumber := some "POL-1", policyholderName := some "Jane Doe",
            effectiveDates := none }
        incidentInformation :=
          { date := some "12/15/2023", time := none, location := none,
            description := some "Vehicle collision" }
        involvedParties :=
          { claimant := none, thirdParties := none, contactDetails := none }
        assetDetails :=
          { assetType := none, assetId := none,
            estimatedDamage := some (24999.99 : ℚ) }
        claimType := some "property"
        attachments := none
        initialEstimate := none } []).1 = "FastTrack" ∧
    (determine_route
      { policyInformation :=
          { policyNumber := some "POL-1", policyholderName := some "Jane Doe",
            effectiveDates := none }
        incidentInformation :=
          { date := some "12/15/2023", time := none, location := none,
            description := some "Vehicle collision" }
        involvedParties :=
          { claimant := none, thirdParties := none, contactDetails := none }
        assetDetails :=
          { assetType := none, assetId := none,
            estimatedDamage := some (25000.0 : ℚ) }
        claimType := some "property"
        attachments := none
        initialEstimate := none } []).1 = "Standard" := by
  constructor
  · exact (c2_fast_track_boundary _ (by decide)
      (by intro s hs; cases hs; decide) _ rfl).1
      (by norm_num [FAST_TRACK_THRESHOLD])
  · exact (c2_fast_track_boundary _ (by decide)
      (by intro s hs; cases hs; decide) _ rfl).2
      (by norm_num [FAST_TRACK_THRESHOLD])

/-- C3: a present description containing a fraud keyword as a
case-insensitive substring forces the Investigation route, regardless of
every other field and of the missing-path list. -/
theorem c3_fraud_overrides_all (e : ExtractedFields) (missing : List String)
    (s : String) (hDesc : e.incidentInformation.description = some s)
    (hKw : ∃ k ∈ FRAUD_KEYWORDS, k.data <:+: (pyLowerStr s).data) :
    (determine_route e missing).1 = "Investigation" := by
  have hf : check_fraud_keywords e.incidentInformation.description = true := by
    rw [hDesc]
    unfold check_fraud_keywords
    rw [List.any_eq_true]
    obtain ⟨k, hk, hinf⟩ := hKw
    exact ⟨k, hk, (subOcc_iff _ _).mpr hinf⟩
  unfold determine_route
  rw [hf]
  simp

/-- Witness for C3: a staged-accident description routes to
Investigation even with mandatory fields missing and low damage. -/
theorem c3_fraud_overrides_all_witness :
    (determine_route
      { policyInformation :=
          { policyNumber := none, policyholderName := none,
            effectiveDates := none }
        incidentInformation :=
          { date := none, time := none, location := none,
            description := some "This looks like a Staged accident" }
        involvedParties :=
          { claimant := none, thirdParties := none, contactDetails := none }
        assetDetails :=
          { assetType := none, assetId := none,
            estimatedDamage := some (100 : ℚ) }
        claimType := some "property"
        attachments := none
        initialEstimate := none }
      ["policyInformation.policyNumber"]).1 = "Investigation" := by
  exact c3_fraud_overrides_all _ _ _ rfl
    ⟨"staged", by decide, (subOcc_iff _ _).mp (by decide)⟩

/-- C4: identify_missing_fields is exactly the declaration-ordered
filter of the six mandatory paths by the absent-or-blank test, written
with direct accessors; in particular its output is a sublist of
MANDATORY_FIELDS in declaration order. -/
theorem c4_missing_fields_order (e : ExtractedFields) :
    identify_missing_fields e = specMissingFields e ∧
    (identify_missing_fields e).Sublist MANDATORY_FIELDS := by
  constructor
  · unfold identify_missing_fields MANDATORY_FIELDS
    simp only [List.filter_cons, List.filter_nil,
      resolve_path_policyNumber, resolve_path_policyholderName,
      resolve_path_date, resolve_path_description,
      resolve_path_claimType, resolve_path_estimatedDamage,
      pyIsMissing_optStrV, pyIsMissing_optNumV]
    unfold specMissingFields
    cases h1 : specMissingStr e.policyInformation.policyNumber <;>
      cases h2 : specMissingStr e.policyInformation.policyholderName <;>
        cases h3 : specMissingStr e.incidentInformation.date <;>
          cases h4 : specMissingStr e.incidentInformation.description <;>
            cases h5 : specMissingStr e.claimType <;>
              cases h6 : specMissingNum e.assetDetails.estimatedDamage <;>
                simp
  · exact List.filter_sublist _

/-- C7: on the fully-blank ExtractedFields, validation reports all six
mandatory paths in declaration order, the fraud check on the absent
description does not fire, and the route is ManualReview. -/
theorem c7_blank_claim_manual_review :
    identify_missing_fields blankExtracted = MANDATORY_FIELDS ∧
    check_fraud_keywords blankExtracted.incidentInformation.description = false ∧
    (determine_route blankExtracted
      (identify_missing_fields blankExtracted)).1 = "ManualReview" := by
  refine ⟨by decide, rfl, by decide⟩

/-- An absent-or-string leaf satisfies the string-leaf shape check. -/
theorem isStrLeafJ_optToJ (o : Option String) : isStrLeafJ (optToJ o) = true := by
  cases o <;> rfl

/-- An absent-or-number leaf satisfies the number-leaf shape check. -/
theorem isNumLeafJ_optNumToJ (o : Option ℚ) : isNumLeafJ (optNumToJ o) = true := by
  cases o <;> rfl

/-- Every assembled extractor result is fully structured, whatever the
per-leaf outcomes. -/
theorem fullyStructured_build (pn phn dt tm loc dsc clm cont : Option String)
    (dmg : Option ℚ) (cty aty aid : Option String) :
    fullyStructured
      (buildExtracted pn phn dt tm loc dsc clm cont dmg cty aty aid) = true := by
  unfold fullyStructured stringLeafPaths
  simp only [List.all_cons, List.all_nil, Bool.and_eq_true, Bool.and_true]
  repeat' apply And.intro
  all_goals
    first
    | exact isStrLeafJ_optToJ pn
    | exact isStrLeafJ_optToJ phn
    | exact isStrLeafJ_optToJ dt
    | exact isStrLeafJ_optToJ tm
    | exact isStrLeafJ_optToJ loc
    | exact isStrLeafJ_optToJ dsc
    | exact isStrLeafJ_optToJ clm
    | exact isStrLeafJ_optToJ cont
    | exact isStrLeafJ_optToJ aty
    | exact isStrLeafJ_optToJ aid
    | exact isStrLeafJ_optToJ cty
    | exact isNumLeafJ_optNumToJ dmg
    | rfl

/-- C5: for every input string the pattern extractor terminates with a
fully-structured result - all four groups present, every leaf absent or
of its schema type - and on input with no matching pattern (here the
empty string) it returns exactly the all-absent schema.  Totality and
absence of exceptions are structural: the extractor is a total function
whose only fallible operation, float() on the damage capture, is caught
and mapped to an absent leaf. -/
theorem c5_extractor_total_and_structured (text : String) :
    fullyStructured (extract_fields_heuristic text) = true ∧
    extract_fields_heuristic "" = allAbsentJ := by
  constructor
  · exact fullyStructured_build _ _ _ _ _ _ _ _ _ _ _ _
  · rfl

/-- C6: the coordinator returns the structured-model result when that
strategy succeeds, returns exactly the pattern extractor's result for
the same text on any external failure (no merging), never surfaces the
external failure, and - the fallback being total - never raises at
all, so an ExtractionFailure could only arise if both strategies
failed. -/
theorem c6_coordinator_fallback (gemini : Except String JVal) (text : String) :
    (∀ err, gemini = .error err →
      extract_fields gemini text = .ok (extract_fields_heuristic text)) ∧
    (∀ r, gemini = .ok r → extract_fields gemini text = .ok r) ∧
    (∀ f, extract_fields gemini text ≠ .error f) := by
  refine ⟨?_, ?_, ?_⟩
  · intro err herr
    rw [herr]
    rfl
  · intro r hr
    rw [hr]
    rfl
  · intro f
    cases gemini with
    | ok r => simp [extract_fields]
    | error e => simp [extract_fields]

/-- Witness for C6: on a failed external call over the empty document,
the coordinator returns the pattern extractor's result. -/
theorem c6_coordinator_fallback_witness :
    extract_fields (Except.error "Gemini API error: timeout") "" =
      Except.ok (extract_fields_heuristic "") ∧
    extract_fields (Except.ok allAbsentJ) "anything" = Except.ok allAbsentJ := by
  constructor
  · exact (c6_coordinator_fallback (Except.error "Gemini API error: timeout")
      "").1 "Gemini API error: timeout" rfl
  · exact (c6_coordinator_fallback (Except.ok allAbsentJ) "anything").2.1
      allAbsentJ rfl

/-- A leaf stored as a stripped capture is already trimmed. -/
theorem leafTrimmed_strip (o : Option String) :
    leafTrimmed (optToJ (o.map pstripS)) = true := by
  cases o with
  | none => rfl
  | some g =>
    show (pstripS (pstripS g) == pstripS g) = true
    simp [pstripS_idem]

/-- A leaf stored as a lowercased stripped capture is already trimmed. -/
theorem leafTrimmed_lower (o : Option String) :
    leafTrimmed (optToJ (o.map fun g => pyLowerStr (pstripS g))) = true := by
  cases o with
  | none => rfl
  | some g =>
    show (pstripS (pyLowerStr (pstripS g)) == pyLowerStr (pstripS g)) = true
    simp [pstripS_pyLowerStr_pstripS]

/-- C8, amended: every present string leaf of the pattern extractor's
output equals its own trim - the extractor never stores an untrimmed
string - though it can store a string that is empty after trimming when
a pattern's capture is entirely whitespace. -/
theorem c8_leaves_trimmed (text : String) :
    allStringLeavesTrimmed (extract_fields_heuristic text) = true := by
  unfold allStringLeavesTrimmed stringLeafPaths
  simp only [List.all_cons, List.all_nil, Bool.and_eq_true, Bool.and_true]
  refine ⟨?_, ?_, ?_, ?_, ?_, ?_, ?_, ?_, ?_, ?_, ?_, ?_⟩
  · exact leafTrimmed_strip _
  · exact leafTrimmed_strip _
  · rfl
  · exact leafTrimmed_strip _
  · exact leafTrimmed_strip _
  · exact leafTrimmed_strip _
  · exact leafTrimmed_strip _
  · exact leafTrimmed_strip _
  · exact leafTrimmed_strip _
  · exact leafTrimmed_strip _
  · exact leafTrimmed_strip _
  · exact leafTrimmed_lower _

/-- Counterexample for C8 as stated: on the document Policyholder,
colon, two spaces, comma, the name pattern's lazy capture matches a
single space, and the stored policyholderName is the empty string -
present but blank after trimming. -/
theorem c8_counterexample :
    allStringLeavesNonBlank (extract_fields_heuristic "Policyholder:  ,") =
      false ∧
    getPath (extract_fields_heuristic "Policyholder:  ,")
      ["policyInformation", "policyholderName"] = some (JVal.str "") := by
  constructor
  · decide
  · rfl

/-- C9: per-leaf first-match-wins.  The head pattern of a leaf's list
decides the leaf whenever it matches, the remaining alternatives are
consulted only when it does not, and every leaf of the extractor's
output is a function of the input text and that leaf's own pattern list
alone, so leaves are independent of one another. -/
theorem c9_first_match_wins (text : String) (p : Re) (ps : List Re) :
    (∀ g, reSearch p text = some g → first_matching (p :: ps) text = some g) ∧
    (reSearch p text = none →
      first_matching (p :: ps) text = first_matching ps text) ∧
    getPath (extract_fields_heuristic text) ["policyInformation", "policyNumber"] =
      some (optToJ ((first_matching policy_patterns text).map pstripS)) ∧
    getPath (extract_fields_heuristic text) ["policyInformation", "policyholderName"] =
      some (optToJ ((first_matching name_patterns text).map pstripS)) ∧
    getPath (extract_fields_heuristic text) ["incidentInformation", "date"] =
      some (optToJ ((first_matching date_patterns text).map pstripS)) ∧
    getPath (extract_fields_heuristic text) ["incidentInformation", "time"] =
      some (optToJ ((first_matching time_patterns text).map pstripS)) ∧
    getPath (extract_fields_heuristic text) ["incidentInformation", "location"] =
      some (optToJ ((first_matching location_patterns text).map pstripS)) ∧
    getPath (extract_fields_heuristic text) ["incidentInformation", "description"] =
      some (optToJ ((first_matching desc_patterns text).map pstripS)) ∧
    getPath (extract_fields_heuristic text) ["involvedParties", "claimant"] =
      some (optToJ ((first_matching claimant_patterns text).map pstripS)) ∧
    getPath (extract_fields_heuristic text) ["involvedParties", "contactDetails"] =
      some (optToJ ((first_matching contact_patterns text).map pstripS)) ∧
    getPath (extract_fields_heuristic text) ["assetDetails", "assetType"] =
      some (optToJ ((first_matching asset_patterns text).map pstripS)) ∧
    getPath (extract_fields_heuristic text) ["assetDetails", "assetId"] =
      some (optToJ ((first_matching asset_id_patterns text).map pstripS)) ∧
    getPath (extract_fields_heuristic text) ["assetDetails", "estimatedDamage"] =
      some (optNumToJ (damageLeaf text)) ∧
    getPath (extract_fields_heuristic text) ["claimType"] =
      some (optToJ ((first_matching claim_type_patterns text).map
        fun g => pyLowerStr (pstripS g))) := by
  refine ⟨?_, ?_, rfl, rfl, rfl, rfl, rfl, rfl, rfl, rfl, rfl, rfl, rfl, rfl⟩
  · intro g hg
    simp only [first_matching, hg]
  · intro h
    simp only [first_matching, h]

/-- Witness for C9: the labeled incident-date pattern decides the date
leaf when it matches, and is skipped in favour of the remaining
alternatives when it does not. -/
theorem c9_first_match_wins_witness :
    first_matching date_patterns "Incident Date: 12/15/2023" =
      some "12/15/2023" ∧
    first_matching date_patterns "Date of Loss: 01/02/2023" =
      first_matching [reDate2, reDate3] "Date of Loss: 01/02/2023" := by
  constructor
  · exact (c9_first_match_wins "Incident Date: 12/15/2023" reDate1
      [reDate2, reDate3]).1 "12/15/2023" (by decide)
  · exact (c9_first_match_wins "Date of Loss: 01/02/2023" reDate1
      [reDate2, reDate3]).2.1 (by decide)

/-- C10: the stored claimType is the lowercased trim of its capture -
so a present claimType never contains an ASCII uppercase letter - while
every other string leaf stores the trim of its capture with the source
text's casing untouched. -/
theorem c10_claim_type_lowercased (text : String) :
    getPath (extract_fields_heuristic text) ["claimType"] =
      some (optToJ ((first_matching claim_type_patterns text).map
        fun g => pyLowerStr (pstripS g))) ∧
    (∀ s, getPath (extract_fields_heuristic text) ["claimType"] =
      some (JVal.str s) → noUpper s = true) ∧
    getPath (extract_fields_heuristic text) ["policyInformation", "policyNumber"] =
      some (optToJ ((first_matching policy_patterns text).map pstripS)) ∧
    getPath (extract_fields_heuristic text) ["policyInformation", "policyholderName"] =
      some (optToJ ((first_matching name_patterns text).map pstripS)) ∧
    getPath (extract_fields_heuristic text) ["incidentInformation", "date"] =
      some (optToJ ((first_matching date_patterns text).map pstripS)) ∧
    getPath (extract_fields_heuristic text) ["incidentInformation", "time"] =
      some (optToJ ((first_matching time_patterns text).map pstripS)) ∧
    getPath (extract_fields_heuristic text) ["incidentInformation", "location"] =
      some (optToJ ((first_matching location_patterns text).map pstripS)) ∧
    getPath (extract_fields_heuristic text) ["incidentInformation", "description"] =
      some (optToJ ((first_matching desc_patterns text).map pstripS)) ∧
    getPath (extract_fields_heuristic text) ["involvedParties", "claimant"] =
      some (optToJ ((first_matching claimant_patterns text).map pstripS)) ∧
    getPath (extract_fields_heuristic text) ["involvedParties", "contactDetails"] =
      some (optToJ ((first_matching contact_patterns text).map pstripS)) ∧
    getPath (extract_fields_heuristic text) ["assetDetails", "assetType"] =
      some (optToJ ((first_matching asset_patterns text).map pstripS)) ∧
    getPath (extract_fields_heuristic text) ["assetDetails", "assetId"] =
      some (optToJ ((first_matching asset_id_patterns text).map pstripS)) := by
  refine ⟨rfl, ?_, rfl, rfl, rfl, rfl, rfl, rfl, rfl, rfl, rfl, rfl⟩
  intro s h
  have h0 : getPath (extract_fields_heuristic text) ["claimType"] =
      some (optToJ ((first_matching claim_type_patterns text).map
        fun g => pyLowerStr (pstripS g))) := rfl
  rw [h0] at h
  rcases hm : first_matching claim_type_patterns text with _ | g
  · rw [hm] at h
    simp [optToJ] at h
  · rw [hm] at h
    simp only [Option.map_some', optToJ, Option.some.injEq, JVal.str.injEq] at h
    rw [← h]
    exact noUpper_pyLowerStr _

/-- Witness for C10: the uppercase claim type PROPERTY is stored
lowercased while the policy number keeps its uppercase form. -/
theorem c10_claim_type_lowercased_witness :
    getPath (extract_fields_heuristic
      "Policy Number: ABC123456\nClaim Type: PROPERTY") ["claimType"] =
      some (JVal.str "property") ∧
    noUpper "property" = true ∧
    getPath (extract_fields_heuristic
      "Policy Number: ABC123456\nClaim Type: PROPERTY")
      ["policyInformation", "policyNumber"] = some (JVal.str "ABC123456") := by
  have h := c10_claim_type_lowercased "Policy Number: ABC123456\nClaim Type: PROPERTY"
  have h1 : getPath (extract_fields_heuristic
      "Policy Number: ABC123456\nClaim Type: PROPERTY") ["claimType"] =
      some (JVal.str "property") := h.1.trans (by rfl)
  exact ⟨h1, h.2.1 "property" h1, (h.2.2.1).trans (by rfl)⟩
